import Mathlib

/-!
Verification of the tariff-tracker dashboard
(`src/tarrif-tracker-dashboard.py`) against its specification.

The program is a single-file Streamlit dashboard with three best-effort
scrapers (USITC HTML table, WTO spreadsheet preview, USTR PDF link list),
a Firestore-backed watchlist with server-assigned timestamps, and an SMTP
email notifier.  Network fetches, the external store and the mail relay
are modelled as explicit outcome values; Python exception handling
(`try`/`except Exception`) is modelled by `PyResult` plus the `pyTry`
wrapper that converts a raised exception into a default value and a
reported `st.error` message.
-/

/-- One row of extracted tariff information (positional fields from
`scrape_usitc_tariffs`, lines 43-49 of the source). -/
structure TariffRecord where
  hsCode : String
  product : String
  tariffRate : String
  unit : String
  effectiveDate : String
deriving Repr, DecidableEq

/-- Outcome of running a block of Python statements: either a value, or an
exception that propagates (`except Exception` blocks catch `exn`). -/
inductive PyResult (α : Type) where
  | ok : α → PyResult α
  | exn : String → PyResult α
deriving Repr, DecidableEq

/-- Result of a whole scraper function: the returned value together with the
list of messages shown via `st.error` on the way. -/
structure Reported (α : Type) where
  value : α
  errors : List String
deriving Repr, DecidableEq

/-- `try: body except Exception as e: st.error(label + e); return default` —
the error-handling shape shared by all three scrapers and the mailer. -/
def pyTry {α : Type} (body : PyResult α) (default : α) (label : String) :
    Reported α :=
  match body with
  | .ok v => ⟨v, []⟩
  | .exn e => ⟨default, [label ++ e]⟩

/-- Outcome of `requests.get` on the USITC URL: the call either raises
(connection error / timeout) or yields a response with an HTTP status and a
parsed document, represented by the cell texts of the rows matching
`#search-results tbody tr`. -/
inductive UsitcFetch where
  | raised : String → UsitcFetch
  | response : Nat → List (List String) → UsitcFetch
deriving Repr, DecidableEq

/-- Python `str.strip()` / BeautifulSoup `get_text(strip=True)`: drop
whitespace from both ends (structural recursion over the character list,
so that concrete inputs evaluate). -/
def pyStrip (s : String) : String :=
  ⟨((s.data.dropWhile Char.isWhitespace).reverse.dropWhile
      Char.isWhitespace).reverse⟩

/-- Python `s.endswith(suffix)` (structural recursion over the character
lists, so that concrete inputs evaluate). -/
def pyEndsWith (s suffix : String) : Bool :=
  suffix.data.isSuffixOf s.data

/-- The per-row extraction of `scrape_usitc_tariffs` (lines 41-49): a row
with at least 5 cells becomes one record from cell positions 0..4
(`get_text(strip=True)` modelled by `pyStrip`); a shorter row yields
nothing. -/
def rowToRecord (cells : List String) : Option TariffRecord :=
  if 5 ≤ cells.length then
    some { hsCode := pyStrip (cells.getD 0 "")
           product := pyStrip (cells.getD 1 "")
           tariffRate := pyStrip (cells.getD 2 "")
           unit := pyStrip (cells.getD 3 "")
           effectiveDate := pyStrip (cells.getD 4 "") }
  else none

/-- The row loop of `scrape_usitc_tariffs` over all selected rows. -/
def extractTableRecords (rows : List (List String)) : List TariffRecord :=
  rows.filterMap rowToRecord

/-- Body of `scrape_usitc_tariffs` (lines 33-51): `requests.get` may raise;
`response.raise_for_status()` raises on a 4xx/5xx status; otherwise the
table rows are extracted. -/
def scrape_usitc_body (f : UsitcFetch) : PyResult (List TariffRecord) :=
  match f with
  | .raised e => .exn e
  | .response status rows =>
    if 400 ≤ status ∧ status < 600 then
      .exn ("HTTP error " ++ toString status)
    else
      .ok (extractTableRecords rows)

/-- `scrape_usitc_tariffs` (lines 32-54): the body wrapped in
`try/except Exception`, returning an empty record list on failure. -/
def scrape_usitc_tariffs (f : UsitcFetch) : Reported (List TariffRecord) :=
  pyTry (scrape_usitc_body f) [] "Error fetching data from USITC: "

/-- Outcome of `pd.read_excel` resolving the fixed WTO URL: either a raised
exception (network failure, HTTP error status raised by the URL opener, or a
malformed spreadsheet) or a workbook given as its list of sheets, each sheet
a list of rows. -/
inductive WtoFetch where
  | raised : String → WtoFetch
  | workbook : List (List (List String)) → WtoFetch
deriving Repr, DecidableEq

/-- Body of `scrape_wto_tariffs` (lines 58-61): read sheet index 1 skipping
6 header rows (a missing sheet raises inside `pd.read_excel`), then
`df.head(10)`. -/
def scrape_wto_body (f : WtoFetch) : PyResult (List (List String)) :=
  match f with
  | .raised e => .exn e
  | .workbook sheets =>
    match sheets.get? 1 with
    | none => .exn "sheet index 1 out of range"
    | some sheet => .ok ((sheet.drop 6).take 10)

/-- `scrape_wto_tariffs` (lines 57-64): body wrapped in
`try/except Exception`, empty preview on failure. -/
def scrape_wto_tariffs (f : WtoFetch) : Reported (List (List String)) :=
  pyTry (scrape_wto_body f) [] "Failed to load WTO data: "

/-- Outcome of `requests.get` on the USTR URL: raised, or a response with a
status and the anchors selected by `.view-content a`, each carrying an
optional `href` attribute (`link.get` yields `None` when absent). -/
inductive UstrFetch where
  | raised : String → UstrFetch
  | response : Nat → List (Option String) → UstrFetch
deriving Repr, DecidableEq

/-- The comprehension filter of line 72: keep `link.get("href")` when it is
truthy (present and non-empty) and ends in `".pdf"`. -/
def hrefKeep (h : Option String) : Option String :=
  match h with
  | none => none
  | some s => if s ≠ "" ∧ pyEndsWith s ".pdf" then some s else none

/-- Lines 71-73 of `get_ustr_updates`: filter the anchors, then
`updates[:5]`. -/
def extractPdfLinks (anchors : List (Option String)) : List String :=
  (anchors.filterMap hrefKeep).take 5

/-- Body of `get_ustr_updates` (lines 68-73): note there is no
`raise_for_status`, so the HTTP status of the response is never inspected —
an error page is parsed like any other page. -/
def get_ustr_body (f : UstrFetch) : PyResult (List String) :=
  match f with
  | .raised e => .exn e
  | .response _ anchors => .ok (extractPdfLinks anchors)

/-- `get_ustr_updates` (lines 67-76): body wrapped in `try/except`,
empty list on failure. -/
def get_ustr_updates (f : UstrFetch) : Reported (List String) :=
  pyTry (get_ustr_body f) [] "Failed to load USTR updates: "

/-- The timeout argument passed to each outbound network call, straight
from the source: `requests.get(url, timeout=10)` on line 35,
`requests.get(url)` with no timeout on line 69, `pd.read_excel(url, ...)`
with no timeout on line 60, `smtplib.SMTP(host, 587)` with no timeout on
line 87. -/
structure NetworkCall where
  url : String
  timeout : Option Nat
deriving Repr, DecidableEq

/-- Line 35: the USITC table fetch. -/
def usitcRequest (hs_code : String) : NetworkCall :=
  ⟨"https://hts.usitc.gov/?query=" ++ hs_code, some 10⟩

/-- Line 69: the USTR link-list fetch (no timeout argument). -/
def ustrRequest : NetworkCall :=
  ⟨"https://ustr.gov/issue-areas/enforcement/section-301-investigations/tariff-actions",
   none⟩

/-- Line 60: the WTO spreadsheet fetch (no timeout argument). -/
def wtoRequest : NetworkCall :=
  ⟨"https://www.wto.org/english/res_e/booksp_e/tariff_profiles21_e.xlsx", none⟩

/-- Line 87: the SMTP connection (no timeout argument). -/
def smtpConnection : NetworkCall :=
  ⟨"smtp.sendgrid.net", none⟩

/-- A saved watchlist search: the three parameters the dashboard writes. -/
structure WatchlistEntry where
  query : String
  country : String
  tariffType : String
deriving Repr, DecidableEq

/-- The timestamp field of a written document: either the server-timestamp
sentinel (`firestore.SERVER_TIMESTAMP`) or an explicit caller value. -/
inductive TimestampField where
  | serverTimestamp : TimestampField
  | caller : Nat → TimestampField
deriving Repr, DecidableEq

/-- The document payload built by the add-to-watchlist handler
(lines 107-112): query, country, tariff type and the timestamp field. -/
structure AddPayload where
  query : String
  country : String
  tariff_type : String
  timestamp : TimestampField
deriving Repr, DecidableEq

/-- Lines 107-112: the payload the dashboard writes always carries the
server-timestamp sentinel, never a caller-chosen time. -/
def watchlistAddPayload (query country tariff_type : String) : AddPayload :=
  ⟨query, country, tariff_type, .serverTimestamp⟩

/-- One stored watchlist document: payload fields plus the store-assigned
document id and creation timestamp. -/
structure StoredEntry where
  docId : Nat
  entry : WatchlistEntry
  createdAt : Nat
deriving Repr, DecidableEq

/-- Modelled from the spec: the Watchlist Store is an external Firestore
collection, not code under `src/`.  Per the spec it is an append-only
collection whose documents carry a server-assigned creation timestamp,
monotonic per store; `clock` is the store clock from which the next
server timestamp is drawn. -/
structure Store where
  entries : List StoredEntry
  clock : Nat
deriving Repr, DecidableEq

/-- Modelled from the spec: resolution of the written timestamp field —
the server-timestamp sentinel resolves to the store clock at write time,
an explicit caller value is stored as given. -/
def Store.resolveTimestamp (s : Store) : TimestampField → Nat
  | .serverTimestamp => s.clock
  | .caller t => t

/-- Modelled from the spec: `collection.add(payload)` appends one new
document (never deduplicating) with a fresh document id and the resolved
timestamp, and advances the store clock. -/
def Store.addPayload (s : Store) (p : AddPayload) : Store :=
  { entries := s.entries ++
      [⟨s.entries.length, ⟨p.query, p.country, p.tariff_type⟩,
        s.resolveTimestamp p.timestamp⟩]
    clock := s.clock + 1 }

/-- The add the dashboard performs (lines 106-112): write the payload built
by `watchlistAddPayload`. -/
def watchlistAdd (s : Store) (query country tariff_type : String) : Store :=
  s.addPayload (watchlistAddPayload query country tariff_type)

/-- Newest-first order on stored entries: later creation timestamp first. -/
def newerOrEq (a b : StoredEntry) : Prop :=
  b.createdAt ≤ a.createdAt

instance : DecidableRel newerOrEq :=
  fun a b => inferInstanceAs (Decidable (b.createdAt ≤ a.createdAt))

instance : IsTotal StoredEntry newerOrEq :=
  ⟨fun a b => Nat.le_total b.createdAt a.createdAt⟩

instance : IsTrans StoredEntry newerOrEq :=
  ⟨fun _ _ _ hab hbc => Nat.le_trans hbc hab⟩

/-- Modelled from the spec: `order_by("timestamp", DESCENDING).stream()`
(line 170) returns all stored documents sorted by creation timestamp
descending, ties broken stably. -/
def Store.listAllNewestFirst (s : Store) : List StoredEntry :=
  List.insertionSort newerOrEq s.entries

/-- Store well-formedness: every stored timestamp predates the store clock
(true of every store reachable by `addPayload` from an empty store). -/
def Store.WF (s : Store) : Prop :=
  ∀ x ∈ s.entries, x.createdAt < s.clock

/-- The empty store. -/
def emptyStore : Store := ⟨[], 0⟩

/-- What the watchlist panel shows (lines 168-177): a table of
(query, country, tariff type) triples, the "No items in your watchlist
yet." info line, or an error message. -/
inductive WatchlistRender where
  | table : List (String × String × String) → WatchlistRender
  | noItems : WatchlistRender
  | errorMsg : String → WatchlistRender
deriving Repr, DecidableEq

/-- Lines 168-177: stream the ordered documents (the fetch may raise, which
the `except` turns into an error message), project each onto its three
display columns, and show the table when non-empty. -/
def renderWatchlist (fetch : PyResult (List StoredEntry)) : WatchlistRender :=
  match fetch with
  | .exn e => .errorMsg ("Error fetching watchlist: " ++ e)
  | .ok docs =>
    let items := docs.map fun d => (d.entry.query, d.entry.country, d.entry.tariffType)
    if items.isEmpty then .noItems else .table items

/-- Outcome of the SMTP session inside `send_email_alert`: every failure
(connection, STARTTLS, login, relay rejection) raises. -/
inductive SmtpOutcome where
  | delivered : SmtpOutcome
  | raised : String → SmtpOutcome
deriving Repr, DecidableEq

/-- Body of `send_email_alert` (lines 81-91): build the message, run the
SMTP session, return `True`. -/
def send_email_alert_body (smtp : SmtpOutcome) : PyResult Bool :=
  match smtp with
  | .delivered => .ok true
  | .raised e => .exn e

/-- `send_email_alert` (lines 79-94): the body wrapped in
`try/except Exception`, returning `False` (with an `st.error` report)
instead of raising. -/
def send_email_alert (smtp : SmtpOutcome) : Reported Bool :=
  pyTry (send_email_alert_body smtp) false "Failed to send email: "

/-- Outcome of `watchlist_ref.add(...)`: commits, or raises a store error. -/
inductive AddOutcome where
  | committed : AddOutcome
  | raised : String → AddOutcome
deriving Repr, DecidableEq

/-- Observable events of the save handler, in order of occurrence. -/
inductive SaveEvent where
  | addCommitted : SaveEvent
  | successShown : SaveEvent
  | emailErrorShown : String → SaveEvent
  | addErrorShown : String → SaveEvent
deriving Repr, DecidableEq

/-- The add-to-watchlist click handler (lines 105-121): inside a `try`,
write the entry, show "Added to watchlist.", then send the email alert
(which handles its own failures); a raised store write is caught by the
outer `except`.  Returns the resulting store and the event sequence. -/
def saveToWatchlist (s : Store) (query country tariff_type : String)
    (add : AddOutcome) (smtp : SmtpOutcome) : Store × List SaveEvent :=
  match add with
  | .raised e => (s, [.addErrorShown ("Failed to add to watchlist: " ++ e)])
  | .committed =>
    let s' := watchlistAdd s query country tariff_type
    let mail := send_email_alert smtp
    (s', [.addCommitted, .successShown] ++ mail.errors.map .emailErrorShown)

/-- The guard of line 97: `if query and country == "United States"` —
a non-empty query and the United States selected. -/
def usitcSectionGuard (query country : String) : Bool :=
  query ≠ "" && country == "United States"

/-- Lines 97-112: the add action is reachable only inside the USITC
section (guard of line 97), only when the scraped result set is non-empty
(line 100), and only when the button is pressed (line 104); it then writes
the payload of lines 107-112. -/
def attemptedAdd (query country tariff_type : String) (fU : UsitcFetch)
    (buttonPressed : Bool) : Option AddPayload :=
  if usitcSectionGuard query country then
    let usitc_data := scrape_usitc_tariffs fU
    if !usitc_data.value.isEmpty then
      if buttonPressed then some (watchlistAddPayload query country tariff_type)
      else none
    else none
  else none

/-- The three independent panels of one render pass. -/
structure DashboardRender where
  usitcPanel : Reported (List TariffRecord)
  wtoPanel : Reported (List (List String))
  ustrPanel : Reported (List String)
deriving Repr, DecidableEq

/-- The module-level fetch-and-render flow (lines 96-135): the USITC panel
renders inside its guard, then the WTO preview, then the USTR link list;
each scraper catches its own failures, so one source failing never stops
the following sections from running. -/
def renderDashboard (query country : String) (fU : UsitcFetch)
    (fW : WtoFetch) (fR : UstrFetch) : DashboardRender :=
  { usitcPanel :=
      if usitcSectionGuard query country then scrape_usitc_tariffs fU
      else ⟨[], []⟩
    wtoPanel := scrape_wto_tariffs fW
    ustrPanel := get_ustr_updates fR }

/-! ### Helper lemmas -/

theorem hrefKeep_eq_some {h : Option String} {u : String}
    (hk : hrefKeep h = some u) : h = some u ∧ pyEndsWith u ".pdf" = true := by
  match h with
  | none => exact absurd hk (by simp [hrefKeep])
  | some s =>
    have hk' : (if s ≠ "" ∧ pyEndsWith s ".pdf" = true then some s else none)
        = some u := hk
    by_cases hc : s ≠ "" ∧ pyEndsWith s ".pdf" = true
    · rw [if_pos hc] at hk'
      cases hk'
      exact ⟨rfl, hc.2⟩
    · rw [if_neg hc] at hk'
      exact absurd hk' (by simp)

theorem filterMap_hrefKeep_sublist (anchors : List (Option String)) :
    (anchors.filterMap hrefKeep).Sublist (anchors.filterMap id) := by
  induction anchors with
  | nil => simp
  | cons h t ih =>
    match h with
    | none => exact ih
    | some s =>
      by_cases hc : s ≠ "" ∧ pyEndsWith s ".pdf" = true
      · simpa [hrefKeep, hc] using ih.cons₂ s
      · simpa [hrefKeep, hc] using ih.cons s

theorem insertionSort_append_newest (l : List StoredEntry) (x : StoredEntry)
    (h : ∀ y ∈ l, y.createdAt < x.createdAt) :
    List.insertionSort newerOrEq (l ++ [x])
      = x :: List.insertionSort newerOrEq l := by
  induction l with
  | nil => rfl
  | cons y t ih =>
    have hy : y.createdAt < x.createdAt := h y (List.mem_cons_self y t)
    have ht : ∀ z ∈ t, z.createdAt < x.createdAt :=
      fun z hz => h z (List.mem_cons_of_mem y hz)
    have hneg : ¬ newerOrEq y x := fun hle => absurd hle (Nat.not_le.mpr hy)
    calc List.insertionSort newerOrEq ((y :: t) ++ [x])
        = List.orderedInsert newerOrEq y
            (List.insertionSort newerOrEq (t ++ [x])) := rfl
      _ = List.orderedInsert newerOrEq y
            (x :: List.insertionSort newerOrEq t) := by rw [ih ht]
      _ = x :: List.orderedInsert newerOrEq y
            (List.insertionSort newerOrEq t) := by
              simp only [List.orderedInsert, if_neg hneg]
      _ = x :: List.insertionSort newerOrEq (y :: t) := rfl

/-! ### Claims -/

/-- C1: the USITC table extractor emits exactly one record per row with at
least 5 cells, mapping cell positions 0..4 positionally to
hsCode/product/tariffRate/unit/effectiveDate (ignoring extra cells, no
header matching); any row with fewer than 5 cells yields no record and no
error, so the output record count never exceeds the input row count. -/
theorem usitc_positional_row_extraction :
    (∀ rows : List (List String),
        (extractTableRecords rows).length ≤ rows.length) ∧
    (∀ cells rest, 5 ≤ cells.length →
        extractTableRecords (cells :: rest)
          = { hsCode := pyStrip (cells.getD 0 "")
              product := pyStrip (cells.getD 1 "")
              tariffRate := pyStrip (cells.getD 2 "")
              unit := pyStrip (cells.getD 3 "")
              effectiveDate := pyStrip (cells.getD 4 "") }
              :: extractTableRecords rest) ∧
    (∀ cells rest, cells.length < 5 →
        extractTableRecords (cells :: rest) = extractTableRecords rest) := by
  refine ⟨fun rows => List.length_filterMap_le rowToRecord rows,
    fun cells rest h => ?_, fun cells rest h => ?_⟩
  · simp [extractTableRecords, List.filterMap_cons, rowToRecord, h]
  · simp [extractTableRecords, List.filterMap_cons, rowToRecord,
      Nat.not_le.mpr h]

/-- Witness for C1 at the spec's own example rows: one full 5-cell row
extracted positionally, one 3-cell row skipped. -/
theorem usitc_positional_row_extraction_witness :
    extractTableRecords
        [["0902.10", "Green Tea", "6.4%", "kg", "2025-04-01"],
         ["0902.30", "Black Tea", "8.0%"]]
      = [{ hsCode := "0902.10", product := "Green Tea", tariffRate := "6.4%",
           unit := "kg", effectiveDate := "2025-04-01" }] := by
  rw [usitc_positional_row_extraction.2.1
        ["0902.10", "Green Tea", "6.4%", "kg", "2025-04-01"]
        [["0902.30", "Black Tea", "8.0%"]] (by decide),
      usitc_positional_row_extraction.2.2
        ["0902.30", "Black Tea", "8.0%"] [] (by decide)]
  decide

/-- C2: the link-list extractor returns only hrefs ending in ".pdf",
returns at most 5 items, preserves document order (its output is a
sublist of the anchors' hrefs in order), and filters before capping — on
the spec's six-anchor example where the second href is not a PDF it
yields the five matching links. -/
theorem ustr_pdf_link_extraction :
    (∀ anchors u, u ∈ extractPdfLinks anchors → pyEndsWith u ".pdf" = true) ∧
    (∀ anchors, (extractPdfLinks anchors).length ≤ 5) ∧
    (∀ anchors, (extractPdfLinks anchors).Sublist (anchors.filterMap id)) ∧
    extractPdfLinks
        [some "/a.pdf", some "/b.html", some "/c.pdf", some "/d.pdf",
         some "/e.pdf", some "/f.pdf"]
      = ["/a.pdf", "/c.pdf", "/d.pdf", "/e.pdf", "/f.pdf"] := by
  refine ⟨fun anchors u hu => ?_, fun anchors => ?_, fun anchors => ?_, ?_⟩
  · have hmem := List.mem_of_mem_take hu
    obtain ⟨h, _, hk⟩ := List.mem_filterMap.mp hmem
    exact (hrefKeep_eq_some hk).2
  · simp [extractPdfLinks, List.length_take]
  · exact (List.take_sublist 5 _).trans (filterMap_hrefKeep_sublist anchors)
  · decide

/-- Witness for C2: on a one-anchor page the returned link does end in
".pdf" and the cap and order properties hold concretely. -/
theorem ustr_pdf_link_extraction_witness :
    pyEndsWith "/a.pdf" ".pdf" = true ∧
    (extractPdfLinks [some "/a.pdf"]).length ≤ 5 :=
  ⟨ustr_pdf_link_extraction.1 [some "/a.pdf"] "/a.pdf" (by decide),
   ustr_pdf_link_extraction.2.1 [some "/a.pdf"]⟩

/-- C3 counterexample: the claim says every Extractor operation converts an
HTTP error status such as 500 into an empty result plus a reported error,
but the link-list extractor never inspects the status: a 500 response whose
body contains a matching PDF anchor yields a non-empty result and reports
no error at all. -/
theorem extractor_http500_counterexample :
    ¬ ((get_ustr_updates (.response 500 [some "/x.pdf"])).value = [] ∧
       (get_ustr_updates (.response 500 [some "/x.pdf"])).errors ≠ []) := by
  decide

/-- C3 (amended): no Extractor operation raises past its boundary — every
raised exception becomes an empty result plus one reported error, with no
retry; the HTML-table fetch additionally raises (and so reports) on any
4xx/5xx status via `raise_for_status`, while the link-list fetch ignores
the HTTP status entirely, processing any response as a normal page with no
reported error. -/
theorem extractor_error_containment :
    (∀ e, scrape_usitc_tariffs (.raised e)
        = ⟨[], ["Error fetching data from USITC: " ++ e]⟩) ∧
    (∀ status rows, 400 ≤ status → status < 600 →
        scrape_usitc_tariffs (.response status rows)
          = ⟨[], ["Error fetching data from USITC: HTTP error "
                    ++ toString status]⟩) ∧
    (∀ status rows, ¬ (400 ≤ status ∧ status < 600) →
        scrape_usitc_tariffs (.response status rows)
          = ⟨extractTableRecords rows, []⟩) ∧
    (∀ e, scrape_wto_tariffs (.raised e)
        = ⟨[], ["Failed to load WTO data: " ++ e]⟩) ∧
    (∀ e, get_ustr_updates (.raised e)
        = ⟨[], ["Failed to load USTR updates: " ++ e]⟩) ∧
    (∀ status anchors, get_ustr_updates (.response status anchors)
        = ⟨extractPdfLinks anchors, []⟩) := by
  refine ⟨fun e => rfl, fun status rows h1 h2 => ?_, fun status rows h => ?_,
    fun e => rfl, fun e => rfl, fun status anchors => rfl⟩
  · simp [scrape_usitc_tariffs, scrape_usitc_body, pyTry, h1, h2]
    rw [← String.append_assoc]
    exact rfl
  · simp [scrape_usitc_tariffs, scrape_usitc_body, pyTry, if_neg h]

/-- Witness for C3 (amended) at the spec's scenario: an HTTP 500 on the
USITC source yields an empty record list and one reported error, and a
success status yields the extracted records with no error. -/
theorem extractor_error_containment_witness :
    scrape_usitc_tariffs (.response 500 [])
      = ⟨[], ["Error fetching data from USITC: HTTP error " ++ toString 500]⟩ ∧
    scrape_usitc_tariffs (.response 200 [])
      = ⟨extractTableRecords [], []⟩ :=
  ⟨extractor_error_containment.2.1 500 [] (by decide) (by decide),
   extractor_error_containment.2.2.1 200 [] (by decide)⟩

/-- C7 counterexample: the claim gives the link-list fetch a 10-second
timeout, but the `requests.get` call on line 69 passes no timeout argument
at all. -/
theorem fetch_timeout_counterexample : ustrRequest.timeout ≠ some 10 := by
  simp [ustrRequest]

/-- C7 (amended): of the four outbound network calls, only the USITC HTML
table fetch is bounded by a timeout (10 seconds); the link-list fetch, the
spreadsheet fetch and the SMTP session are all issued without one. -/
theorem fetch_timeout_configuration :
    (∀ hs_code, (usitcRequest hs_code).timeout = some 10) ∧
    ustrRequest.timeout = none ∧
    wtoRequest.timeout = none ∧
    smtpConnection.timeout = none :=
  ⟨fun _ => rfl, rfl, rfl, rfl⟩

/-- C4: two adds with identical (query, country, tariffType) parameters
record two distinct entries — `add` never deduplicates — and after an add
whose assigned timestamp is the latest (guaranteed here by store
well-formedness), `listAllNewestFirst` returns the new entry first. -/
theorem watchlist_add_no_dedup_newest_first (s : Store) (q c t : String)
    (hwf : s.WF) :
    ((watchlistAdd (watchlistAdd s q c t) q c t).entries.length
        = s.entries.length + 2) ∧
    (∃ x y, (watchlistAdd (watchlistAdd s q c t) q c t).entries
        = s.entries ++ [x, y] ∧ x ≠ y ∧
        x.entry = ⟨q, c, t⟩ ∧ y.entry = ⟨q, c, t⟩) ∧
    (watchlistAdd s q c t).listAllNewestFirst
      = ⟨s.entries.length, ⟨q, c, t⟩, s.clock⟩
          :: List.insertionSort newerOrEq s.entries := by
  refine ⟨by simp [watchlistAdd, Store.addPayload, watchlistAddPayload,
      Store.resolveTimestamp], ?_, ?_⟩
  · refine ⟨⟨s.entries.length, ⟨q, c, t⟩, s.clock⟩,
      ⟨(watchlistAdd s q c t).entries.length, ⟨q, c, t⟩, s.clock + 1⟩,
      ?_, ?_, rfl, rfl⟩
    · simp [watchlistAdd, Store.addPayload, watchlistAddPayload,
        Store.resolveTimestamp]
    · intro hxy
      have : s.clock = s.clock + 1 := congrArg StoredEntry.createdAt hxy
      omega
  · show List.insertionSort newerOrEq
        (s.entries ++ [⟨s.entries.length, ⟨q, c, t⟩, s.clock⟩]) = _
    rw [insertionSort_append_newest s.entries _ (fun y hy => hwf y hy)]

/-- Witness for C4 on the empty store: the double add stores two distinct
entries and the second add's entry is listed first. -/
theorem watchlist_add_no_dedup_newest_first_witness :
    ((watchlistAdd (watchlistAdd emptyStore "0902.10" "United States"
        "Applied") "0902.10" "United States" "Applied").entries.length
      = emptyStore.entries.length + 2) := by
  exact (watchlist_add_no_dedup_newest_first emptyStore "0902.10"
    "United States" "Applied" (by intro x hx; simp [emptyStore] at hx)).1

/-- C5: `listAllNewestFirst` returns all stored entries (a permutation of
the store contents) ordered by `createdAt` descending, and on the empty
store it returns the empty sequence, which the watchlist panel renders as
the "no items" notice rather than an error. -/
theorem watchlist_list_newest_first_total :
    (∀ s : Store, s.listAllNewestFirst.Perm s.entries) ∧
    (∀ s : Store, List.Sorted newerOrEq s.listAllNewestFirst) ∧
    emptyStore.listAllNewestFirst = [] ∧
    renderWatchlist (.ok emptyStore.listAllNewestFirst)
      = .noItems :=
  ⟨fun s => List.perm_insertionSort newerOrEq s.entries,
   fun s => List.sorted_insertionSort newerOrEq s.entries,
   rfl, rfl⟩

/-- C6: when the add commits, a notification failure changes nothing about
it — the resulting store equals the plain add independently of the SMTP
outcome, the add is committed and reported successful before the notifier
runs, the saved entry is observable via `listAllNewestFirst`, and
`send_email_alert` converts every internal failure into a reported message
and a `false` return instead of an exception. -/
theorem notify_failure_isolated_from_add :
    (∀ s q c t smtp, (saveToWatchlist s q c t .committed smtp).1
        = watchlistAdd s q c t) ∧
    (∀ s q c t smtp, ∃ rest, (saveToWatchlist s q c t .committed smtp).2
        = .addCommitted :: .successShown :: rest) ∧
    (∀ s q c t smtp, ∃ x ∈ (saveToWatchlist s q c t .committed
        smtp).1.listAllNewestFirst, x.entry = ⟨q, c, t⟩) ∧
    (∀ e, send_email_alert (.raised e)
        = ⟨false, ["Failed to send email: " ++ e]⟩) := by
  refine ⟨fun s q c t smtp => rfl, fun s q c t smtp => ⟨_, rfl⟩,
    fun s q c t smtp => ?_, fun e => rfl⟩
  refine ⟨⟨s.entries.length, ⟨q, c, t⟩, s.clock⟩, ?_, rfl⟩
  show _ ∈ (watchlistAdd s q c t).listAllNewestFirst
  rw [Store.listAllNewestFirst, List.mem_insertionSort]
  simp [watchlistAdd, Store.addPayload, watchlistAddPayload,
    Store.resolveTimestamp]

/-- C8: each panel of one render pass depends only on its own source's
fetch outcome, so a failure of any one source (here a raised fetch) leaves
the other two panels rendering exactly as they would have anyway. -/
theorem fetch_failure_isolation :
    (∀ q c fU fU2 fW fR fR2, (renderDashboard q c fU fW fR).wtoPanel
        = (renderDashboard q c fU2 fW fR2).wtoPanel) ∧
    (∀ q c fU fU2 fW fW2 fR, (renderDashboard q c fU fW fR).ustrPanel
        = (renderDashboard q c fU2 fW2 fR).ustrPanel) ∧
    (∀ q c fU fW fW2 fR fR2, (renderDashboard q c fU fW fR).usitcPanel
        = (renderDashboard q c fU fW2 fR2).usitcPanel) ∧
    (∀ q c e fW fR,
        (renderDashboard q c (.raised e) fW fR).wtoPanel
          = scrape_wto_tariffs fW ∧
        (renderDashboard q c (.raised e) fW fR).ustrPanel
          = get_ustr_updates fR) ∧
    (∀ q c fU e fR,
        (renderDashboard q c fU (.raised e) fR).ustrPanel
          = get_ustr_updates fR ∧
        (renderDashboard q c fU (.raised e) fR).usitcPanel
          = (renderDashboard q c fU (.workbook []) fR).usitcPanel) :=
  ⟨fun _ _ _ _ _ _ _ => rfl, fun _ _ _ _ _ _ _ => rfl,
   fun _ _ _ _ _ _ _ => rfl, fun _ _ _ _ _ => ⟨rfl, rfl⟩,
   fun _ _ _ _ _ => ⟨rfl, rfl⟩⟩

/-- C9: the written payload always carries the server-timestamp sentinel
(never a caller-supplied time), the store resolves it to the store clock at
write time, and adds preserve well-formedness, so the `createdAt` order
used by `listAllNewestFirst` is authoritative. -/
theorem createdAt_server_assigned :
    (∀ q c t, (watchlistAddPayload q c t).timestamp
        = TimestampField.serverTimestamp) ∧
    (∀ s q c t, (watchlistAdd s q c t).entries.getLast?
        = some ⟨s.entries.length, ⟨q, c, t⟩, s.clock⟩) ∧
    (∀ s : Store, ∀ q c t, s.WF → (watchlistAdd s q c t).WF) := by
  refine ⟨fun q c t => rfl, fun s q c t => ?_, fun s q c t hwf => ?_⟩
  · exact List.getLast?_concat _
  · intro x hx
    rcases List.mem_append.mp hx with hmem | hnew
    · exact Nat.lt_succ_of_lt (hwf x hmem)
    · have : x = ⟨s.entries.length, ⟨q, c, t⟩,
          s.resolveTimestamp TimestampField.serverTimestamp⟩ :=
        List.mem_singleton.mp hnew
      rw [this]
      exact Nat.lt_succ_self s.clock

/-- Witness for C9: adding to the empty store yields a well-formed store
whose sole entry was stamped with the store clock. -/
theorem createdAt_server_assigned_witness :
    (watchlistAdd emptyStore "0902.10" "United States" "Applied").WF :=
  createdAt_server_assigned.2.2 emptyStore "0902.10" "United States"
    "Applied" (by intro x hx; simp [emptyStore] at hx)

/-- C10: whenever the dashboard issues a watchlist add, the query was
non-empty, the selected country was "United States", the live USITC lookup
returned a non-empty record set, the button was pressed, and the written
payload carries exactly those parameters — so no other country's search
can be saved through this interface. -/
theorem add_reachable_only_for_us_nonempty_query
    (q c t : String) (fU : UsitcFetch) (b : Bool) (p : AddPayload)
    (h : attemptedAdd q c t fU b = some p) :
    q ≠ "" ∧ c = "United States" ∧
    (scrape_usitc_tariffs fU).value ≠ [] ∧ b = true ∧
    p = watchlistAddPayload q c t ∧ p.query = q ∧
    p.country = "United States" ∧
    p.timestamp = TimestampField.serverTimestamp := by
  simp only [attemptedAdd] at h
  split at h
  · split at h
    · split at h
      · rename_i hg hne hb
        cases Option.some.inj h
        have hgq : q ≠ "" ∧ c = "United States" := by
          simpa [usitcSectionGuard] using hg
        refine ⟨hgq.1, hgq.2, ?_, hb, rfl, rfl, hgq.2 ▸ rfl, rfl⟩
        intro hempty
        rw [hempty] at hne
        exact absurd hne (by decide)
      · exact absurd h (by simp)
    · exact absurd h (by simp)
  · exact absurd h (by simp)

/-- Witness for C10: a concrete United States query with one fully
populated result row and the button pressed reaches the add with exactly
the entered parameters. -/
theorem add_reachable_only_for_us_nonempty_query_witness :
    ("0902.10" : String) ≠ "" ∧ "United States" = "United States" ∧
    (scrape_usitc_tariffs (.response 200
        [["0902.10", "Green Tea", "6.4%", "kg", "2025-04-01"]])).value ≠ [] ∧
    true = true ∧
    watchlistAddPayload "0902.10" "United States" "Applied"
      = watchlistAddPayload "0902.10" "United States" "Applied" ∧
    (watchlistAddPayload "0902.10" "United States" "Applied").query
      = "0902.10" ∧
    (watchlistAddPayload "0902.10" "United States" "Applied").country
      = "United States" ∧
    (watchlistAddPayload "0902.10" "United States" "Applied").timestamp
      = TimestampField.serverTimestamp :=
  add_reachable_only_for_us_nonempty_query "0902.10" "United States"
    "Applied" (.response 200
      [["0902.10", "Green Tea", "6.4%", "kg", "2025-04-01"]]) true
    (watchlistAddPayload "0902.10" "United States" "Applied") (by decide)
